import Mathlib

/-!
Verification development for the point-of-sale back-end (`server.py`).

The order engine, inventory ledger, payment state machine and order listing
are embedded shallowly: the Mongo collections become lists of documents
(`find_one` is first-match lookup, `update_one` is first-match update,
`insert_one` is append), request handlers become pure state transformers
returning the new store plus the HTTP result, and the nondeterministic
inputs of a handler (generated uuids, order numbers, timestamps) become
explicit parameters.  Monetary values are Python arbitrary-precision
integers, embedded as `Int`.

The only non-integer arithmetic in the modelled code is
`tax_amount = int(subtotal * tax_rate)` with `tax_rate = 0.08`, which CPython
evaluates in IEEE-754 binary64.  Every binary64 value is a dyadic rational
`m * 2^e`, and the product of two dyadics is exact, so the whole computation
is embedded exactly over a `Dyadic` type with round-to-nearest-ties-to-even;
overflow and subnormal clamping are not modelled, which is exact for all
values in the binary64 normal range (all values appearing here).
-/

namespace POS

/-- A dyadic rational `m * 2^e`: the exact value domain of IEEE-754 binary64. -/
structure Dyadic where
  m : Int
  e : Int
deriving DecidableEq

/-- Exact product of two dyadic rationals (IEEE multiplication is this product
rounded by `floatRound`). -/
def Dyadic.mul (a b : Dyadic) : Dyadic := ⟨a.m * b.m, a.e + b.e⟩

/-- `a.ltPow2 t` decides `a.m * 2^a.e < 2^t`, by clearing the common power of two. -/
def Dyadic.ltPow2 (a : Dyadic) (t : Int) : Bool :=
  let mn := min a.e t
  a.m * 2 ^ (a.e - mn).toNat < 2 ^ (t - mn).toNat

/-- Find `k` with `2^52 ≤ a * 2^k < 2^53` for positive `a`, by bounded search
(1200 steps cover the whole binary64 exponent range). -/
def findScale : Nat → Dyadic → Int → Int
  | 0, _, k => k
  | fuel + 1, a, k =>
    if Dyadic.ltPow2 ⟨a.m, a.e + k⟩ 52 then findScale fuel a (k + 1)
    else if !Dyadic.ltPow2 ⟨a.m, a.e + k⟩ 53 then findScale fuel a (k - 1)
    else k

/-- Round a nonnegative dyadic to the nearest integer, ties to even. -/
def dyadicRne (x : Dyadic) : Int :=
  if 0 ≤ x.e then x.m * 2 ^ x.e.toNat
  else
    let s := (-x.e).toNat
    let f := x.m / 2 ^ s
    let r := x.m % 2 ^ s
    let h := 2 ^ (s - 1)
    if r < h then f else if h < r then f + 1 else if f % 2 = 0 then f else f + 1

/-- Round an exact dyadic value to the nearest IEEE-754 binary64 value
(round-to-nearest, ties-to-even): scale the magnitude into `[2^52, 2^53)`,
round the scaled significand to an integer, and scale back. -/
def floatRound (d : Dyadic) : Dyadic :=
  if d.m = 0 then ⟨0, 0⟩
  else
    let a : Dyadic := ⟨|d.m|, d.e⟩
    let k : Int := findScale 1200 a 0
    let m : Int := dyadicRne ⟨a.m, a.e + k⟩
    ⟨if d.m < 0 then -m else m, -k⟩

/-- `tax_rate = 0.08` from `create_order`: the binary64 value of the literal
`0.08` (`5764607523034235 * 2^-56`, the double nearest to `8/100`; see
`tax_rate_nearest_double` below). -/
def tax_rate : Dyadic := ⟨5764607523034235, -56⟩

/-- Python `int()` applied to a dyadic value: truncation toward zero. -/
def pyInt (d : Dyadic) : Int :=
  if 0 ≤ d.e then d.m * 2 ^ d.e.toNat
  else
    let s := (-d.e).toNat
    if 0 ≤ d.m then d.m / 2 ^ s else -((-d.m) / 2 ^ s)

/-- `int(subtotal * tax_rate)` from `create_order`: CPython converts the int
`subtotal` to binary64 (nearest-even rounding), multiplies by the binary64
literal `0.08` (exact dyadic product, rounded to the nearest double), and
truncates the result toward zero. -/
def pyTax (subtotal : Int) : Int :=
  pyInt (floatRound (Dyadic.mul (floatRound ⟨subtotal, 0⟩) tax_rate))

/-- Rational value of a dyadic (used only to state facts about `tax_rate`). -/
def Dyadic.toRat (d : Dyadic) : ℚ := (d.m : ℚ) * (2 : ℚ) ^ d.e

/-! ## Data model (`server.py` Pydantic models)

Python `datetime` fields are embedded as abstract `Nat` instants (only their
order matters to the modelled endpoints); `Optional[T]` becomes `Option T`. -/

/-- `User` model: the authenticated cashier (auth mechanics are out of scope,
the resolved user is an input of each handler). -/
structure User where
  id : String
  username : String
  pin : String
  role : String
  full_name : String
  email : Option String
  phone : Option String
  is_approved : Bool
  created_at : Nat
  updated_at : Nat
deriving DecidableEq

/-- `Product` model. -/
structure Product where
  id : String
  name : String
  description : Option String
  price : Int
  category : String
  sku : String
  barcode : Option String
  stock_quantity : Int
  min_stock_level : Int
  cost_price : Option Int
  is_active : Bool
  created_at : Nat
  updated_at : Nat
deriving DecidableEq

/-- `Customer` model. -/
structure Customer where
  id : String
  name : String
  email : Option String
  phone : Option String
  address : Option String
  loyalty_points : Int
  total_spent : Int
  created_at : Nat
  updated_at : Nat
deriving DecidableEq

/-- `OrderItem` model (embedded line item). -/
structure OrderItem where
  product_id : String
  product_name : String
  quantity : Int
  unit_price : Int
  total_price : Int
deriving DecidableEq

/-- `Order` model. -/
structure Order where
  id : String
  order_number : String
  customer_id : Option String
  customer_name : Option String
  items : List OrderItem
  subtotal : Int
  tax_amount : Int
  discount_amount : Int
  total_amount : Int
  payment_method : String
  payment_status : String
  square_payment_id : Option String
  cashier_id : String
  cashier_name : String
  notes : Option String
  created_at : Nat
  updated_at : Nat
deriving DecidableEq

/-- `InventoryMovement` model (append-only ledger entry). -/
structure InventoryMovement where
  id : String
  product_id : String
  movement_type : String
  quantity : Int
  reference_id : Option String
  notes : Option String
  user_id : String
  created_at : Nat
deriving DecidableEq

/-- `OrderCreate` request body. -/
structure OrderCreate where
  customer_id : Option String
  items : List OrderItem
  payment_method : String
  discount_amount : Int
  notes : Option String
deriving DecidableEq

/-- `PaymentRequest` request body. -/
structure PaymentRequest where
  order_id : String
  payment_method : String
  amount : Int
  cash_received : Option Int
  payment_token : Option String
deriving DecidableEq

/-- Response dictionary of `process_payment`; the `change_due` key is present
only when it is added by the handler. -/
structure PayResponse where
  payment_id : String
  status : String
  amount : Int
  order_id : String
  change_due : Option Int
deriving DecidableEq

/-- The persistent store: the four Mongo collections the modelled handlers
touch, each in natural (insertion) order. -/
structure DB where
  products : List Product
  customers : List Customer
  orders : List Order
  inventory_movements : List InventoryMovement
deriving DecidableEq

/-- The `HTTPException`s raised by the modelled handlers. -/
inductive ApiError where
  | orderNotFound
  | alreadyPaid
  | insufficientCash
  | invalidDateFormat
deriving DecidableEq

/-! ## Store and truthiness primitives -/

/-- Python truthiness of an `Optional[str]`: `None` and `""` are falsy. -/
def truthyStr : Option String → Bool
  | none => false
  | some s => s ≠ ""

/-- Python truthiness of an `Optional[int]`: `None` and `0` are falsy. -/
def truthyInt : Option Int → Bool
  | none => false
  | some n => n ≠ 0

/-- Mongo `update_one`: apply `f` to the first element matching `p`, if any. -/
def updateFirst (p : α → Bool) (f : α → α) : List α → List α
  | [] => []
  | x :: xs => if p x then f x :: xs else x :: updateFirst p f xs

/-! ## Order engine: `create_order` -/

/-- The per-item loop of `create_order`: for each line item, decrement the
matching product's `stock_quantity` (`update_one` with `$inc`; a no-op when no
product matches) and append a `sale` `InventoryMovement` referencing the order.
`mid idx` is the uuid generated for the `idx`-th movement. -/
def orderLoop (uid oid : String) (mid : Nat → String) (now : Nat) :
    List OrderItem → Nat → List Product → List InventoryMovement →
    List Product × List InventoryMovement
  | [], _, ps, ms => (ps, ms)
  | item :: rest, idx, ps, ms =>
    let ps' := updateFirst (fun p => p.id == item.product_id)
      (fun p => { p with stock_quantity := p.stock_quantity - item.quantity }) ps
    let ms' := ms ++ [⟨mid idx, item.product_id, "sale", -item.quantity,
      some oid, none, uid, now⟩]
    orderLoop uid oid mid now rest (idx + 1) ps' ms'

/-- `create_order` handler.  `oid` is the generated order uuid, `onum` the
generated order number, `mid` the movement uuids and `now` the wall clock,
all nondeterministic inputs of the handler.  Returns the new store and the
order returned to the client (the inserted document). -/
def create_order (s : DB) (order_data : OrderCreate) (current_user : User)
    (oid onum : String) (mid : Nat → String) (now : Nat) : DB × Order :=
  let subtotal : Int := (order_data.items.map OrderItem.total_price).sum
  let tax_amount : Int := pyTax subtotal
  let total_amount : Int := subtotal + tax_amount - order_data.discount_amount
  let customer_name : Option String :=
    if truthyStr order_data.customer_id then
      match List.find? (fun c => c.id == order_data.customer_id.getD "") s.customers with
      | some c => some c.name
      | none => none
    else none
  let order : Order :=
    ⟨oid, onum, order_data.customer_id, customer_name, order_data.items,
      subtotal, tax_amount, order_data.discount_amount, total_amount,
      order_data.payment_method, "pending", none,
      current_user.id, current_user.full_name, order_data.notes, now, now⟩
  let pm := orderLoop current_user.id oid mid now order_data.items 0
    s.products s.inventory_movements
  ({ s with
      orders := s.orders ++ [order],
      products := pm.1,
      inventory_movements := pm.2 }, order)

/-! ## Payment state machine: `process_payment` -/

/-- `process_payment` handler.  `payId` is the generated payment reference and
`now` the wall clock.  Returns the store after the call together with the HTTP
outcome; every raised `HTTPException` happens before any write, so the store
is returned unchanged on the error paths, exactly as in the source. -/
def process_payment (s : DB) (payment_data : PaymentRequest) (payId : String)
    (now : Nat) : DB × Except ApiError PayResponse :=
  match List.find? (fun o => o.id == payment_data.order_id) s.orders with
  | none => (s, Except.error ApiError.orderNotFound)
  | some order =>
    if order.payment_status == "completed" then
      (s, Except.error ApiError.alreadyPaid)
    else if payment_data.payment_method == "cash"
        && !(truthyInt payment_data.cash_received
             && payment_data.amount ≤ payment_data.cash_received.getD 0) then
      (s, Except.error ApiError.insufficientCash)
    else
      let payment_status := "completed"
      let orders' := updateFirst (fun o => o.id == payment_data.order_id)
        (fun o => { o with
          payment_status := payment_status,
          square_payment_id := some payId,
          updated_at := now }) s.orders
      let customers' :=
        if truthyStr order.customer_id then
          updateFirst (fun c => c.id == order.customer_id.getD "")
            (fun c => { c with
              total_spent := c.total_spent + payment_data.amount,
              loyalty_points := c.loyalty_points + Int.fdiv payment_data.amount 100 })
            s.customers
        else s.customers
      ({ s with orders := orders', customers := customers' },
        Except.ok ⟨payId, payment_status, payment_data.amount, payment_data.order_id,
          if payment_data.payment_method == "cash" && truthyInt payment_data.cash_received
          then some (payment_data.cash_received.getD 0 - payment_data.amount)
          else none⟩)

/-! ## Order listing: `get_orders` -/

/-! ### `datetime.fromisoformat` (CPython 3.11)

`get_orders` parses its date bounds with
`datetime.fromisoformat(date_from.replace('Z', '+00:00'))`.  The parser is
Python standard library (not part of this repository); it is modelled below
from the spec's ISO-8601 wording down to the concrete CPython 3.11 C
accelerator semantics, validated against `datetime.fromisoformat` on several
million inputs (exhaustive over all short time suffixes and the calendar,
ISO-week and UTC-offset edge cases): accepted are
`YYYY-MM-DD`/`YYYYMMDD`/ISO-week dates, optionally followed by one arbitrary
separator character plus `HH[:MM[:SS]]` (or compact) time, an optional
`.`/`,` fraction, and an optional `Z` or `±HH[:MM[:SS[.ffffff]]]` offset
strictly below 24 h — including 3.11's quirk of dropping one stray character
at a component boundary just before an offset marker.  The parsed instant is
mapped to a `Nat` key (proleptic-Gregorian microseconds); the stored
`created_at` values are abstract `Nat`s, so only parse success/failure and
the key's presence matter to the modelled endpoints. -/

/-- Accumulate exactly `n` ASCII digits of `cs` starting at `pos`. -/
def readDigitsAux (cs : List Char) : Nat → Nat → Nat → Option Nat
  | _, 0, acc => some acc
  | pos, n + 1, acc =>
    match cs.get? pos with
    | some c =>
      if c.isDigit then readDigitsAux cs (pos + 1) n (acc * 10 + (c.toNat - 48))
      else none
    | none => none

/-- Exactly `n` ASCII digits at `pos` (CPython `parse_digits`). -/
def readDigits (cs : List Char) (pos n : Nat) : Option Nat :=
  readDigitsAux cs pos n 0

/-- Index of the first non-digit at or after `idx` (bounded by fuel). -/
def scanDigits (cs : List Char) : Nat → Nat → Nat
  | idx, 0 => idx
  | idx, fuel + 1 =>
    match cs.get? idx with
    | some c => if c.isDigit then scanDigits cs (idx + 1) fuel else idx
    | none => idx

/-- Gregorian leap year. -/
def isLeap (y : Nat) : Bool :=
  y % 4 == 0 && (y % 100 != 0 || y % 400 == 0)

/-- Days in a month (month `1..12`). -/
def daysInMonth (y m : Nat) : Nat :=
  if m == 2 then (if isLeap y then 29 else 28)
  else if m == 4 || m == 6 || m == 9 || m == 11 then 30
  else 31

/-- Days in all years before year `y` (proleptic Gregorian, year ≥ 1). -/
def daysBeforeYear (y : Nat) : Nat :=
  let z := y - 1
  z * 365 + z / 4 - z / 100 + z / 400

/-- Days in the months of year `y` strictly before month `m`. -/
def daysBeforeMonth (y : Nat) : Nat → Nat
  | 0 => 0
  | m + 1 => if m == 0 then 0 else daysBeforeMonth y m + daysInMonth y m

/-- Proleptic-Gregorian ordinal of a date (0001-01-01 is day 1). -/
def ymd2ord (y m d : Nat) : Nat :=
  daysBeforeYear y + daysBeforeMonth y m + d

/-- Ordinal of 9999-12-31, the largest representable date. -/
def MAXORDINAL : Nat := 3652059

/-- `_find_isoformat_datetime_separator`: position of the single character
separating the date part from the time part (callers ensure length ≥ 7). -/
def findSep (cs : List Char) : Option Nat :=
  let n := cs.length
  if n == 7 then some 7
  else if cs.get? 4 == some '-' then
    if cs.get? 5 == some 'W' then
      if n < 8 then none
      else if n > 8 && cs.get? 8 == some '-' then
        if n == 9 then none
        else if n > 10 && ((cs.get? 10).map Char.isDigit).getD false then some 8
        else some 10
      else some 8
    else some 10
  else if cs.get? 4 == some 'W' then
    let idx := scanDigits cs 7 n
    if idx < 9 then some idx
    else if idx % 2 == 0 then some 7
    else some 8
  else some 8

/-- `_isoweek_to_gregorian`: validate an ISO week date (week 53 only in long
years, weekday `1..7`) and convert it to an ordinal within the calendar. -/
def isoWeekToOrdinal (year week dayno : Nat) : Option Nat :=
  let jan1 := ymd2ord year 1 1
  let weekOk := (1 ≤ week && week ≤ 52) ||
    (week == 53 && (jan1 % 7 == 4 || (jan1 % 7 == 3 && isLeap year)))
  if !weekOk then none
  else if dayno < 1 || 7 < dayno then none
  else
    let firstweekday := (jan1 + 6) % 7
    let week1monday : Int :=
      (jan1 : Int) - (firstweekday : Int) + (if firstweekday > 3 then 7 else 0)
    let ordday : Int := week1monday + ((week : Int) - 1) * 7 + ((dayno : Int) - 1)
    if ordday < 1 || ordday > (MAXORDINAL : Int) then none else some ordday.toNat

/-- `_parse_isoformat_date` (strict ASCII digits, as in the C accelerator):
`YYYY-MM-DD`, `YYYYMMDD`, or ISO week dates `YYYY[-]Www[[-]D]`; dash use must
be consistent; year `1..9999`, month `1..12`, day within the month.  Returns
the date's ordinal. -/
def parseIsoformatDate (cs : List Char) : Option Nat :=
  let n := cs.length
  match readDigits cs 0 4 with
  | none => none
  | some year =>
    if year < 1 then none
    else
      let hasSep := cs.get? 4 == some '-'
      let pos := if hasSep then 5 else 4
      if cs.get? pos == some 'W' then
        match readDigits cs (pos + 1) 2 with
        | none => none
        | some week =>
          let pos := pos + 3
          if pos < n then
            if (cs.get? pos == some '-') != hasSep then none
            else
              let pos := if hasSep then pos + 1 else pos
              match readDigits cs pos 1 with
              | none => none
              | some dayno =>
                if pos + 1 != n then none
                else isoWeekToOrdinal year week dayno
          else isoWeekToOrdinal year week 1
      else
        match readDigits cs pos 2 with
        | none => none
        | some month =>
          let pos := pos + 2
          if (cs.get? pos == some '-') != hasSep then none
          else
            let pos := if hasSep then pos + 1 else pos
            match readDigits cs pos 2 with
            | none => none
            | some day =>
              if pos + 2 != n then none
              else if month < 1 || 12 < month then none
              else if day < 1 || daysInMonth year month < day then none
              else some (ymd2ord year month day)

/-- Fraction part of `parse_hh_mm_ss_ff`: up to six digits give the
microseconds; the scan then stops at the first non-digit, and whether the
string was fully consumed is reported to the caller (CPython only enforces
full consumption when no offset marker follows). -/
def hmsfFraction (cs : List Char) (L pos h m s : Nat) :
    Option (Nat × Nat × Nat × Nat × Bool) :=
  let rem := L - pos
  let toParse := min 6 rem
  if toParse == 0 then none
  else
    match readDigits cs pos toParse with
    | none => none
    | some v =>
      let us := v * 10 ^ (6 - toParse)
      let stop := scanDigits cs (pos + toParse) L
      some (h, m, s, us, stop == L)

/-- Update the `i`-th of the three time components. -/
def setComp : Nat → Nat × Nat × Nat → Nat → Nat × Nat × Nat
  | 0, (_, b, c), v => (v, b, c)
  | 1, (a, _, c), v => (a, v, c)
  | _, (a, b, _), v => (a, b, v)

/-- Component loop of CPython 3.11 `parse_hh_mm_ss_ff` over `HH[:?MM[:?SS]]`.
`beyond` is the character just past the slice in the underlying buffer (the
offset marker, or `none` at end of string).  Faithfully includes the 3.11
boundary quirk: when a component boundary falls on the last character, that
character is dropped and the parse reports the slice as not fully consumed. -/
def hmsfLoop (cs : List Char) (beyond : Option Char) (L : Nat) :
    Nat → Nat → Bool → Nat × Nat × Nat → Option (Nat × Nat × Nat × Nat × Bool)
  | 0, pos, _, (h, m, s) => hmsfFraction cs L pos h m s
  | fuel + 1, pos, hasSep0, comps =>
    match readDigits cs pos 2 with
    | none => none
    | some v =>
      let i := 3 - (fuel + 1)
      let comps := setComp i comps v
      let pos := pos + 2
      let c : Option Char := if pos < L then cs.get? pos else beyond
      let hasSep := if i == 0 then c == some ':' else hasSep0
      if L ≤ pos + 1 then
        some (comps.1, comps.2.1, comps.2.2, 0, pos == L)
      else if c == some ':' then
        if !hasSep then none
        else hmsfLoop cs beyond L fuel (pos + 1) hasSep comps
      else if c == some '.' || c == some ',' then
        hmsfFraction cs L (pos + 1) comps.1 comps.2.1 comps.2.2
      else if hasSep then none
      else hmsfLoop cs beyond L fuel pos hasSep comps

/-- CPython 3.11 `parse_hh_mm_ss_ff`: returns hour, minute, second,
microsecond and whether the slice was fully consumed. -/
def parseHhMmSsFf (cs : List Char) (beyond : Option Char) :
    Option (Nat × Nat × Nat × Nat × Bool) :=
  hmsfLoop cs beyond cs.length 3 0 false (0, 0, 0)

/-- Index of the first offset marker (`Z`, `+` or `-`). -/
def findMarker : List Char → Option Nat
  | [] => none
  | c :: rest =>
    if c == 'Z' || c == '+' || c == '-' then some 0
    else (findMarker rest).map (· + 1)

/-- Range check of the time components (`datetime` constructor). -/
def timeRangeCheck (h m s us : Nat) : Option (Nat × Nat × Nat × Nat) :=
  if h ≤ 23 && m ≤ 59 && s ≤ 59 then some (h, m, s, us) else none

/-- CPython 3.11 `parse_isoformat_time`: split at the first offset marker,
parse the time (full consumption required only without a marker), then the
offset: a final `Z`, or a sign followed by `HH[:?MM[:?SS[.ffffff]]]` of
length other than 0, 1 or 3, fully consumed, totalling strictly less than
24 hours (the offset is validated and discarded — only the local reading
keys the order filter). -/
def parseIsoformatTime (cs : List Char) : Option (Nat × Nat × Nat × Nat) :=
  let L := cs.length
  match findMarker cs with
  | none =>
    match parseHhMmSsFf cs none with
    | some (h, m, s, us, true) => timeRangeCheck h m s us
    | _ => none
  | some tzpos =>
    match parseHhMmSsFf (cs.take tzpos) (cs.get? tzpos) with
    | none => none
    | some (h, m, s, us, _) =>
      if cs.get? tzpos == some 'Z' then
        if tzpos + 1 == L then timeRangeCheck h m s us else none
      else
        let tzstr := cs.drop (tzpos + 1)
        let tlen := tzstr.length
        if tlen == 0 || tlen == 1 || tlen == 3 then none
        else
          match parseHhMmSsFf tzstr none with
          | some (th, tm, ts2, tus, true) =>
            if (th * 3600 + tm * 60 + ts2) * 1000000 + tus < 86400000000 then
              timeRangeCheck h m s us
            else none
          | _ => none

/-- Modelled from the spec: `datetime.fromisoformat` of CPython 3.11 (Python
standard library, not part of this repository; the spec fixes dates as
ISO-8601 with UTC offset).  Strings shorter than 7 are invalid; otherwise
the date/time separator is located, the date parsed, and — when anything
follows the date — the time too.  The result is a `Nat` key
(proleptic-Gregorian microseconds). -/
def parseISODate (s : String) : Option Nat :=
  let cs := s.toList
  let n := cs.length
  if n < 7 then none
  else
    match findSep cs with
    | none => none
    | some sep =>
      match parseIsoformatDate (cs.take sep) with
      | none => none
      | some ordday =>
        if n > sep then
          match parseIsoformatTime (cs.drop (sep + 1)) with
          | none => none
          | some (h, m, s2, us) =>
            some ((((ordday * 24 + h) * 60 + m) * 60 + s2) * 1000000 + us)
        else
          some ((((ordday * 24 + 0) * 60 + 0) * 60 + 0) * 1000000 + 0)

/-- Python `date_str.replace('Z', '+00:00')` as applied by `get_orders`
before parsing. -/
def replaceZ (s : String) : String :=
  String.mk (s.toList.foldr
    (fun c acc =>
      if c == 'Z' then '+' :: '0' :: '0' :: ':' :: '0' :: '0' :: acc
      else c :: acc) [])

/-- Descending creation-time order used by `get_orders`
(`.sort("created_at", -1)`). -/
def createdDesc (a b : Order) : Prop := b.created_at ≤ a.created_at

instance : DecidableRel createdDesc := fun a b => Nat.decLe b.created_at a.created_at

instance : IsTotal Order createdDesc :=
  ⟨fun a b => Nat.le_total b.created_at a.created_at⟩

instance : IsTrans Order createdDesc :=
  ⟨fun _ _ _ hab hbc => Nat.le_trans hbc hab⟩

/-- `get_orders` handler: when both date bounds are truthy they are parsed
(`ValueError` becomes a 400), and the parsed range filters `created_at`;
otherwise no filter is applied.  The query sorts by `created_at` descending
and limits to 100 documents. -/
def get_orders (s : DB) (date_from date_to : Option String) :
    Except ApiError (List Order) :=
  if truthyStr date_from && truthyStr date_to then
    match parseISODate (replaceZ (date_from.getD "")),
        parseISODate (replaceZ (date_to.getD "")) with
    | some from_date, some to_date =>
      Except.ok ((List.insertionSort createdDesc
        (s.orders.filter (fun o =>
          decide (from_date ≤ o.created_at) && decide (o.created_at ≤ to_date)))).take 100)
    | _, _ => Except.error ApiError.invalidDateFormat
  else
    Except.ok ((List.insertionSort createdDesc s.orders).take 100)

/-! ## Statement-side observers -/

/-- Stock of the product a Mongo id-lookup resolves to in a product list
(first match, like `find_one`). -/
def stockOfList (ps : List Product) (pid : String) : Option Int :=
  (List.find? (fun p => p.id == pid) ps).map Product.stock_quantity

/-- Stock of the product a Mongo id-lookup resolves to (first match). -/
def stockOf (s : DB) (pid : String) : Option Int :=
  stockOfList s.products pid

/-- Payment status of the order a Mongo id-lookup resolves to. -/
def statusOf (s : DB) (oid : String) : Option String :=
  (List.find? (fun o => o.id == oid) s.orders).map Order.payment_status

/-- The customer record a Mongo id-lookup resolves to. -/
def customerOf (s : DB) (cid : String) : Option Customer :=
  List.find? (fun c => c.id == cid) s.customers

/-- Total quantity of `pid` ordered across the line items of a cart. -/
def qtyOrdered (items : List OrderItem) (pid : String) : Int :=
  ((items.filter (fun it => it.product_id == pid)).map OrderItem.quantity).sum

/-- The movements the spec promises for a cart: one `sale` entry per line
item, in cart order, with quantity `-(ordered quantity)`, referencing the
created order and the acting user. -/
def specSaleMovements (uid oid : String) (mid : Nat → String) (now : Nat) :
    List OrderItem → Nat → List InventoryMovement
  | [], _ => []
  | item :: rest, idx =>
    ⟨mid idx, item.product_id, "sale", -item.quantity, some oid, none, uid, now⟩ ::
      specSaleMovements uid oid mid now rest (idx + 1)

/-! ## Sample documents (used by concrete witnesses and counterexamples) -/

/-- A concrete admin user acting as cashier. -/
def uA : User := ⟨"u1", "ua", "h", "admin", "User A", none, none, true, 0, 0⟩

/-- A concrete line item: 2 × 350 = 700, the spec's worked example. -/
def itemA : OrderItem := ⟨"p1", "Widget", 2, 350, 700⟩

/-- A concrete product with stock 100. -/
def prodA : Product :=
  ⟨"p1", "Widget", none, 350, "general", "SKU1", none, 100, 5, none, true, 0, 0⟩

/-- A concrete customer with 5 points and 1000 spent. -/
def custA : Customer := ⟨"c1", "Cust", none, none, none, 5, 1000, 0, 0⟩

/-- A pending order for `custA` over `[itemA]`. -/
def orderPending : Order :=
  ⟨"o1", "N1", some "c1", some "Cust", [itemA], 700, 56, 0, 756,
    "cash", "pending", none, "u1", "User A", none, 10, 10⟩

/-- The same order already settled. -/
def orderCompleted : Order := { orderPending with payment_status := "completed" }

/-- The same order in the failed state. -/
def orderFailed : Order := { orderPending with payment_status := "failed" }

/-- Store holding `prodA`, `custA` and the pending order. -/
def dbPending : DB := ⟨[prodA], [custA], [orderPending], []⟩

/-- Store holding `prodA`, `custA` and the completed order. -/
def dbCompleted : DB := ⟨[prodA], [custA], [orderCompleted], []⟩

/-- Store holding `prodA`, `custA` and the failed order. -/
def dbFailed : DB := ⟨[prodA], [custA], [orderFailed], []⟩

/-- An older order (created before `orderPending`, stored before it). -/
def orderOld : Order :=
  ⟨"o0", "N0", none, none, [itemA], 700, 56, 0, 756,
    "card", "pending", none, "u1", "User A", none, 5, 5⟩

/-- Store whose orders are stored oldest-first, so listing must reorder. -/
def dbTwo : DB := ⟨[prodA], [custA], [orderOld, orderPending], []⟩

/-! ## Helper lemmas -/

/-- First-match lookup after a first-match update that preserves ids:
the looked-up document is transformed when the keys agree, untouched
otherwise. -/
theorem find_updateFirst {α : Type} (idf : α → String) (f : α → α)
    (hid : ∀ a, idf (f a) = idf a) (pid qid : String) (l : List α) :
    List.find? (fun a => idf a == qid) (updateFirst (fun a => idf a == pid) f l)
      = if qid = pid then (List.find? (fun a => idf a == qid) l).map f
        else List.find? (fun a => idf a == qid) l := by
  induction l with
  | nil => simp [updateFirst]
  | cons x xs ih =>
    by_cases hxp : idf x = pid
    · by_cases hqp : qid = pid
      · subst hqp
        simp [updateFirst, hxp, hid]
      · have h1 : ¬ idf (f x) = qid := by
          rw [hid, hxp]; exact fun h => hqp h.symm
        have h2 : ¬ idf x = qid := by
          rw [hxp]; exact fun h => hqp h.symm
        have h3 : ¬ pid = qid := fun h => hqp h.symm
        simp [updateFirst, List.find?_cons, hxp, h1, h2, h3, hqp]
    · by_cases hxq : idf x = qid
      · have hqp : ¬ qid = pid := fun h => hxp (h ▸ hxq)
        simp [updateFirst, hxp, hxq, hqp]
      · simp [updateFirst, hxp, hxq, ih]

/-- Splitting the total ordered quantity at a head item. -/
theorem qtyOrdered_cons (item : OrderItem) (rest : List OrderItem) (pid : String) :
    qtyOrdered (item :: rest) pid
      = (if item.product_id = pid then item.quantity else 0) + qtyOrdered rest pid := by
  by_cases h : item.product_id = pid <;>
    simp [qtyOrdered, List.filter_cons, h]

/-- The per-item loop of `create_order` appends exactly the movements the
spec promises, in order. -/
theorem orderLoop_movements (uid oid : String) (mid : Nat → String) (now : Nat)
    (items : List OrderItem) :
    ∀ (idx : Nat) (ps : List Product) (ms : List InventoryMovement),
      (orderLoop uid oid mid now items idx ps ms).2
        = ms ++ specSaleMovements uid oid mid now items idx := by
  induction items with
  | nil => intro idx ps ms; simp [orderLoop, specSaleMovements]
  | cons item rest ih => intro idx ps ms; simp [orderLoop, specSaleMovements, ih]

/-- One promised `sale` movement per line item. -/
theorem specSaleMovements_length (uid oid : String) (mid : Nat → String)
    (now : Nat) (items : List OrderItem) :
    ∀ idx : Nat, (specSaleMovements uid oid mid now items idx).length = items.length := by
  induction items with
  | nil => intro idx; simp [specSaleMovements]
  | cons item rest ih => intro idx; simp [specSaleMovements, ih]

/-- The per-item loop of `create_order` decrements the looked-up stock of
every product id by exactly the total quantity ordered for it. -/
theorem orderLoop_stock (uid oid : String) (mid : Nat → String) (now : Nat)
    (items : List OrderItem) :
    ∀ (idx : Nat) (ps : List Product) (ms : List InventoryMovement) (pid : String),
      stockOfList (orderLoop uid oid mid now items idx ps ms).1 pid
        = (stockOfList ps pid).map (fun q => q - qtyOrdered items pid) := by
  induction items with
  | nil =>
    intro idx ps ms pid
    simp only [orderLoop, qtyOrdered, List.filter_nil, List.map_nil, List.sum_nil]
    cases stockOfList ps pid <;> simp
  | cons item rest ih =>
    intro idx ps ms pid
    rw [orderLoop, ih]
    rw [stockOfList,
      find_updateFirst Product.id
        (fun p => { p with stock_quantity := p.stock_quantity - item.quantity })
        (fun a => rfl) item.product_id pid ps,
      qtyOrdered_cons]
    by_cases hp : pid = item.product_id
    · rw [if_pos hp]
      cases hfind : List.find? (fun p => p.id == pid) ps <;>
        simp [stockOfList, hfind, hp.symm, sub_sub]
    · rw [if_neg hp]
      have : ¬ item.product_id = pid := fun h => hp h.symm
      cases hfind : List.find? (fun p => p.id == pid) ps <;>
        simp [stockOfList, hfind, this]

/-- `int(0 * 0.08) = 0`: the tax of an empty cart. -/
theorem pyTax_zero : pyTax 0 = 0 := by decide

set_option maxRecDepth 20000 in
/-- The spec's worked example: `int(700 * 0.08) = 56`. -/
theorem pyTax_example : pyTax 700 = 56 := by decide

/-- The date-parser model agrees with CPython 3.11 `datetime.fromisoformat`
on representative samples (each checked against the Python runtime):
month/day range checks reject `2024-99-99` and non-leap `2023-02-29`,
width checks reject `2024-1-01`, the time range check rejects hour 24, the
offset bound rejects `+24:00`, while calendar dates, datetimes with UTC
offsets, leap days, ISO week dates, compact forms and `Z` suffixes (via the
handler's rewrite) are accepted with the expected keys. -/
theorem parseISODate_fromisoformat_samples :
    parseISODate "2024-99-99" = none
    ∧ parseISODate "2023-02-29" = none
    ∧ parseISODate "2024-1-01" = none
    ∧ parseISODate "2024-01-01T24:00:00" = none
    ∧ parseISODate (replaceZ "2024-01-01T09:00+24:00") = none
    ∧ parseISODate "2024-01-01" = some 63839750400000000
    ∧ parseISODate "2024-01-01T00:00:00+00:00" = some 63839750400000000
    ∧ parseISODate "2024-02-29" = some 63844848000000000
    ∧ parseISODate "2020-W53-7" = some 63745315200000000
    ∧ parseISODate "20240101T09:30" = some 63839784600000000
    ∧ parseISODate (replaceZ "2024-01-01T09:00Z") = some 63839782800000000
    ∧ parseISODate "2024-01-01 23:59:59.999999" = some 63839836799999999 :=
  ⟨rfl, rfl, rfl, rfl, rfl, rfl, rfl, rfl, rfl, rfl, rfl, rfl⟩

/-- The embedded `tax_rate` is within half an ulp of `8/100` (ulp `2^-56` on
`[2^-4, 2^-3)`), hence it is the binary64 value of the literal `0.08`. -/
theorem tax_rate_nearest_double :
    |Dyadic.toRat tax_rate - 8 / 100| ≤ 2 ^ (-(57 : ℤ)) := by
  rw [Dyadic.toRat, tax_rate]
  norm_num [zpow_neg]
  rw [abs_le]
  constructor <;> norm_num

/-! ## C1 — order totals -/

set_option maxRecDepth 40000 in
/-- C1 counterexample: for the one-item cart with `total_price = -13` and
discount 0, `create_order` stores `tax_amount = -1` (CPython truncates
`-13 * 0.08 = -1.04` toward zero), while exact arithmetic gives
`floor(-13 * 0.08) = floor(-13 * 8 / 100) = -2`, so the claimed
`tax_amount = floor(subtotal * 0.08)` fails at this input. -/
theorem createOrder_tax_not_exact_floor :
    (create_order ⟨[], [], [], []⟩ ⟨none, [⟨"p1", "X", 1, -13, -13⟩], "cash", 0, none⟩
        uA "o9" "N9" (fun _ => "m") 0).2.subtotal = -13
    ∧ (create_order ⟨[], [], [], []⟩ ⟨none, [⟨"p1", "X", 1, -13, -13⟩], "cash", 0, none⟩
        uA "o9" "N9" (fun _ => "m") 0).2.tax_amount = -1
    ∧ Int.fdiv (8 * (-13)) 100 = -2 := by
  refine ⟨by decide, by decide, by decide⟩

set_option maxRecDepth 40000 in
/-- C1 (amended): for every cart and discount, `create_order` computes
`subtotal = Σ item.total_price` and
`total_amount = subtotal + tax_amount - discount_amount` in exact integer
arithmetic, and `tax_amount = int(subtotal * 0.08)` evaluated in IEEE-754
binary64 and truncated toward zero (`pyTax`) — not the exact rational
`floor(subtotal * 0.08)`, from which it drifts (truncation toward zero for
negative subtotals, float rounding for very large ones). -/
theorem createOrder_totals (s : DB) (od : OrderCreate) (u : User)
    (oid onum : String) (mid : Nat → String) (now : Nat) :
    (create_order s od u oid onum mid now).2.subtotal
        = (od.items.map OrderItem.total_price).sum
    ∧ (create_order s od u oid onum mid now).2.tax_amount
        = pyTax ((od.items.map OrderItem.total_price).sum)
    ∧ (create_order s od u oid onum mid now).2.total_amount
        = (od.items.map OrderItem.total_price).sum
          + pyTax ((od.items.map OrderItem.total_price).sum)
          - od.discount_amount :=
  ⟨rfl, rfl, rfl⟩

/-! ## C2 — inventory movements and stock decrements -/

/-- C2: a (always-successful) `create_order` over a cart of `N` line items
appends exactly `N` `sale` movements to the ledger — one per line item, in
cart order, with quantity `-(ordered quantity)` and `reference_id` the
created order's id — and the stock a lookup of any product id resolves to
decreases by exactly the total quantity ordered for that id (absent product
ids stay absent: the `$inc` update matches nothing). -/
theorem createOrder_ledger_and_stock (s : DB) (od : OrderCreate) (u : User)
    (oid onum : String) (mid : Nat → String) (now : Nat) :
    (create_order s od u oid onum mid now).1.inventory_movements
        = s.inventory_movements ++ specSaleMovements u.id oid mid now od.items 0
    ∧ (create_order s od u oid onum mid now).1.inventory_movements.length
        = s.inventory_movements.length + od.items.length
    ∧ ∀ pid, stockOf (create_order s od u oid onum mid now).1 pid
        = (stockOf s pid).map (fun q => q - qtyOrdered od.items pid) := by
  refine ⟨?_, ?_, ?_⟩
  · simp [create_order, orderLoop_movements]
  · simp [create_order, orderLoop_movements, specSaleMovements_length]
  · intro pid
    simp [create_order, stockOf, orderLoop_stock]

/-! ## C9 — empty carts are accepted -/

/-- C9: `create_order` on an empty cart does not fail: it persists an order
with `subtotal = 0`, `tax_amount = 0` and `total_amount = -discount_amount`,
touches no product stock and appends no inventory movement. -/
theorem createOrder_empty_cart (s : DB) (od : OrderCreate) (u : User)
    (oid onum : String) (mid : Nat → String) (now : Nat)
    (h : od.items = []) :
    (create_order s od u oid onum mid now).2.subtotal = 0
    ∧ (create_order s od u oid onum mid now).2.tax_amount = 0
    ∧ (create_order s od u oid onum mid now).2.total_amount = -od.discount_amount
    ∧ (create_order s od u oid onum mid now).1.products = s.products
    ∧ (create_order s od u oid onum mid now).1.inventory_movements
        = s.inventory_movements
    ∧ (create_order s od u oid onum mid now).1.orders
        = s.orders ++ [(create_order s od u oid onum mid now).2] := by
  refine ⟨?_, ?_, ?_, ?_, ?_, ?_⟩ <;>
    simp [create_order, h, orderLoop, pyTax_zero]

/-- C9 witness: a concrete empty-cart call against the sample store. -/
theorem createOrder_empty_cart_witness :
    (create_order dbPending ⟨none, [], "card", 5, none⟩ uA "o2" "N2"
        (fun _ => "m") 7).2.subtotal = 0
    ∧ (create_order dbPending ⟨none, [], "card", 5, none⟩ uA "o2" "N2"
        (fun _ => "m") 7).2.tax_amount = 0
    ∧ (create_order dbPending ⟨none, [], "card", 5, none⟩ uA "o2" "N2"
        (fun _ => "m") 7).2.total_amount = -(5 : Int)
    ∧ (create_order dbPending ⟨none, [], "card", 5, none⟩ uA "o2" "N2"
        (fun _ => "m") 7).1.products = dbPending.products
    ∧ (create_order dbPending ⟨none, [], "card", 5, none⟩ uA "o2" "N2"
        (fun _ => "m") 7).1.inventory_movements = dbPending.inventory_movements
    ∧ (create_order dbPending ⟨none, [], "card", 5, none⟩ uA "o2" "N2"
        (fun _ => "m") 7).1.orders = dbPending.orders
          ++ [(create_order dbPending ⟨none, [], "card", 5, none⟩ uA "o2" "N2"
                (fun _ => "m") 7).2] :=
  createOrder_empty_cart dbPending ⟨none, [], "card", 5, none⟩ uA "o2" "N2"
    (fun _ => "m") 7 rfl

/-! ## Payment branch characterizations -/

/-- When the order is found, is not `completed`, and the cash guard passes
(vacuous for non-cash methods), `process_payment` takes the success branch:
the order is marked `completed` with the payment reference, the linked
customer (if truthy) accumulates spend and points, and the response carries
`change_due` exactly for truthy-cash requests. -/
theorem process_payment_success (s : DB) (pd : PaymentRequest) (payId : String)
    (now : Nat) (o : Order)
    (hf : List.find? (fun x => x.id == pd.order_id) s.orders = some o)
    (h1 : ¬ o.payment_status = "completed")
    (h2 : pd.payment_method = "cash" →
      truthyInt pd.cash_received = true ∧ pd.amount ≤ pd.cash_received.getD 0) :
    process_payment s pd payId now =
      ({ s with
          orders := updateFirst (fun x => x.id == pd.order_id)
            (fun x => { x with
              payment_status := "completed",
              square_payment_id := some payId,
              updated_at := now }) s.orders,
          customers :=
            if truthyStr o.customer_id then
              updateFirst (fun c => c.id == o.customer_id.getD "")
                (fun c => { c with
                  total_spent := c.total_spent + pd.amount,
                  loyalty_points := c.loyalty_points + Int.fdiv pd.amount 100 })
                s.customers
            else s.customers },
        Except.ok ⟨payId, "completed", pd.amount, pd.order_id,
          if pd.payment_method == "cash" && truthyInt pd.cash_received
          then some (pd.cash_received.getD 0 - pd.amount) else none⟩) := by
  unfold process_payment
  rw [hf]
  dsimp only
  rw [if_neg (by simp [h1]), if_neg (by simpa using h2)]

/-! ## C3 — completed orders reject re-payment -/

/-- C3: whenever the order a payment request resolves to is already
`completed`, `process_payment` fails with `alreadyPaid` — whatever the
payment method — and returns the store unchanged. -/
theorem processPayment_already_paid (s : DB) (pd : PaymentRequest)
    (payId : String) (now : Nat) (o : Order)
    (hfind : List.find? (fun x => x.id == pd.order_id) s.orders = some o)
    (hdone : o.payment_status = "completed") :
    process_payment s pd payId now = (s, Except.error ApiError.alreadyPaid) := by
  unfold process_payment
  rw [hfind]
  dsimp only
  rw [if_pos (by simp [hdone])]

/-- C3 witness: a cash re-payment against the settled sample order. -/
theorem processPayment_already_paid_witness :
    process_payment dbCompleted ⟨"o1", "cash", 756, some 756, none⟩ "pay1" 11
      = (dbCompleted, Except.error ApiError.alreadyPaid) :=
  processPayment_already_paid dbCompleted ⟨"o1", "cash", 756, some 756, none⟩
    "pay1" 11 orderCompleted (by rfl) rfl

/-! ## C10 — failed calls change nothing -/

/-- C10: every failing `process_payment` call — order not found, order
already completed, or insufficient cash — leaves the store exactly as it
was: all error paths return before any write. -/
theorem processPayment_failure_preserves_state (s : DB) (pd : PaymentRequest)
    (payId : String) (now : Nat) (e : ApiError)
    (h : (process_payment s pd payId now).2 = Except.error e) :
    (process_payment s pd payId now).1 = s := by
  rcases hf : List.find? (fun o => o.id == pd.order_id) s.orders with _ | o
  · unfold process_payment; rw [hf]
  · by_cases h1 : o.payment_status = "completed"
    · unfold process_payment; rw [hf]; dsimp only
      rw [if_pos (by simp [h1])]
    · by_cases h2 : (pd.payment_method == "cash"
          && !(truthyInt pd.cash_received
               && decide (pd.amount ≤ pd.cash_received.getD 0))) = true
      · unfold process_payment; rw [hf]; dsimp only
        rw [if_neg (by simp [h1]), if_pos h2]
      · exfalso
        unfold process_payment at h
        rw [hf] at h
        dsimp only at h
        rw [if_neg (by simp [h1]), if_neg h2] at h
        exact absurd h (by simp)

/-- C10 witness: the already-paid failure leaves the settled store intact. -/
theorem processPayment_failure_preserves_state_witness :
    (process_payment dbCompleted ⟨"o1", "card", 756, none, none⟩ "pay2" 12).1
      = dbCompleted :=
  processPayment_failure_preserves_state dbCompleted
    ⟨"o1", "card", 756, none, none⟩ "pay2" 12 ApiError.alreadyPaid (by rfl)

/-! ## C4 — which payment transitions exist -/

/-- C4 counterexample: a `failed` order is not terminal — a card payment
against the failed sample order succeeds and moves it to `completed`,
refuting "no sequence of processPayment calls moves an order out of the
failed or refunded status". -/
theorem processPayment_failed_order_repaid :
    statusOf dbFailed "o1" = some "failed"
    ∧ (process_payment dbFailed ⟨"o1", "card", 756, none, none⟩ "pay6" 20).2
        = Except.ok ⟨"pay6", "completed", 756, "o1", none⟩
    ∧ statusOf (process_payment dbFailed ⟨"o1", "card", 756, none, none⟩
        "pay6" 20).1 "o1" = some "completed" :=
  ⟨rfl, rfl, rfl⟩

/-- C4 (amended): `process_payment` only ever rewrites a payment status to
`completed`: after any call, every order's looked-up status is either
unchanged or — only for the targeted order, and only when its status was not
already `completed` — equal to `completed`.  Thus `pending`, `failed` and
`refunded` orders can all be (re)settled, only `completed` is terminal, and
the endpoint never records a `failed` status itself (failures raise before
any write). -/
theorem processPayment_only_completes (s : DB) (pd : PaymentRequest)
    (payId : String) (now : Nat) (oid : String) :
    statusOf (process_payment s pd payId now).1 oid = statusOf s oid
    ∨ (oid = pd.order_id ∧ statusOf s oid ≠ some "completed"
        ∧ statusOf (process_payment s pd payId now).1 oid = some "completed") := by
  rcases hf : List.find? (fun o => o.id == pd.order_id) s.orders with _ | o
  · left; unfold process_payment; rw [hf]
  · by_cases h1 : o.payment_status = "completed"
    · left; unfold process_payment; rw [hf]; dsimp only
      rw [if_pos (by simp [h1])]
    · by_cases h2 : (pd.payment_method == "cash"
          && !(truthyInt pd.cash_received
               && decide (pd.amount ≤ pd.cash_received.getD 0))) = true
      · left; unfold process_payment; rw [hf]; dsimp only
        rw [if_neg (by simp [h1]), if_pos h2]
      · have hguard : pd.payment_method = "cash" →
            truthyInt pd.cash_received = true
              ∧ pd.amount ≤ pd.cash_received.getD 0 := by
          simpa using h2
        have hs := process_payment_success s pd payId now o hf h1 hguard
        by_cases ho : oid = pd.order_id
        · right
          subst ho
          refine ⟨rfl, ?_, ?_⟩
          · simp only [statusOf, hf, Option.map_some]
            exact fun hcontra => h1 (Option.some.inj hcontra)
          · rw [hs]
            simp only [statusOf]
            rw [find_updateFirst Order.id
              (fun x => { x with
                payment_status := "completed",
                square_payment_id := some payId,
                updated_at := now })
              (fun a => rfl) pd.order_id pd.order_id s.orders]
            rw [if_pos rfl, hf]
            rfl
        · left
          rw [hs]
          simp only [statusOf]
          rw [find_updateFirst Order.id
            (fun x => { x with
              payment_status := "completed",
              square_payment_id := some payId,
              updated_at := now })
            (fun a => rfl) pd.order_id oid s.orders]
          rw [if_neg ho]

/-! ## C5 — cash tender rules -/

/-- C5 counterexample: a cash request whose `cashReceived` equals the amount
(both 0) is rejected with `insufficientCash` — Python's truthiness test
`if payment_data.cash_received and ...` treats a tendered 0 as absent — while
the claim promises success with `change_due = 0`. -/
theorem processPayment_cash_zero_rejected :
    process_payment dbPending ⟨"o1", "cash", 0, some 0, none⟩ "pay4" 40
      = (dbPending, Except.error ApiError.insufficientCash) :=
  rfl

/-- C5 (amended): for a cash payment against a resolvable, not-yet-completed
order: if `cashReceived` is absent, zero, or below the amount, the call fails
with `insufficientCash`; if `cashReceived` is nonzero and at least the
amount, it succeeds with `change_due = cashReceived - amount` (zero when they
are equal). -/
theorem processPayment_cash_rules (s : DB) (pd : PaymentRequest)
    (payId : String) (now : Nat) (o : Order)
    (hfind : List.find? (fun x => x.id == pd.order_id) s.orders = some o)
    (hstatus : ¬ o.payment_status = "completed")
    (hmethod : pd.payment_method = "cash") :
    ((pd.cash_received = none ∨ pd.cash_received = some 0
        ∨ pd.cash_received.getD 0 < pd.amount) →
      process_payment s pd payId now = (s, Except.error ApiError.insufficientCash))
    ∧ (∀ cr : Int, pd.cash_received = some cr → ¬ cr = 0 → pd.amount ≤ cr →
        (process_payment s pd payId now).2
          = Except.ok ⟨payId, "completed", pd.amount, pd.order_id,
              some (cr - pd.amount)⟩) := by
  constructor
  · intro hbad
    unfold process_payment
    rw [hfind]
    dsimp only
    rw [if_neg (by simp [hstatus])]
    rw [if_pos (by
      rcases hbad with h | h | h
      · simp [hmethod, h, truthyInt]
      · simp [hmethod, h, truthyInt]
      · simp [hmethod, not_le.mpr h])]
  · intro cr hcr hne hle
    rw [process_payment_success s pd payId now o hfind hstatus
      (fun _ => ⟨by simp [truthyInt, hcr, hne], by simp [hcr, hle]⟩)]
    simp [hmethod, truthyInt, hcr, hne]

/-- C5 witness: tendering 600 cash on a 500 order succeeds with change 100. -/
theorem processPayment_cash_rules_witness :
    (process_payment dbPending ⟨"o1", "cash", 500, some 600, none⟩ "pay3" 30).2
      = Except.ok ⟨"pay3", "completed", 500, "o1", some 100⟩ :=
  (processPayment_cash_rules dbPending ⟨"o1", "cash", 500, some 600, none⟩
      "pay3" 30 orderPending rfl (by decide) rfl).2 600 rfl (by decide) (by decide)

/-! ## C6 — customer loyalty accumulation -/

/-- C6: a successful `process_payment` on an order linked to an existing
customer (a nonempty id that resolves) adds exactly the payment amount to
that customer's `total_spent` and exactly `floor(amount / 100)` to their
`loyalty_points`; an order with no linked customer leaves the customers
collection untouched. -/
theorem processPayment_customer_accums (s : DB) (pd : PaymentRequest)
    (payId : String) (now : Nat) (o : Order)
    (hfind : List.find? (fun x => x.id == pd.order_id) s.orders = some o)
    (hok : ∃ r, (process_payment s pd payId now).2 = Except.ok r) :
    (o.customer_id = none → (process_payment s pd payId now).1.customers = s.customers)
    ∧ (∀ cid c, o.customer_id = some cid → ¬ cid = "" → customerOf s cid = some c →
        customerOf (process_payment s pd payId now).1 cid
          = some { c with
              total_spent := c.total_spent + pd.amount,
              loyalty_points := c.loyalty_points + Int.fdiv pd.amount 100 }) := by
  obtain ⟨r, hr⟩ := hok
  by_cases h1 : o.payment_status = "completed"
  · exfalso
    unfold process_payment at hr
    rw [hfind] at hr
    dsimp only at hr
    rw [if_pos (by simp [h1])] at hr
    exact absurd hr (by simp)
  · by_cases h2 : (pd.payment_method == "cash"
        && !(truthyInt pd.cash_received
             && decide (pd.amount ≤ pd.cash_received.getD 0))) = true
    · exfalso
      unfold process_payment at hr
      rw [hfind] at hr
      dsimp only at hr
      rw [if_neg (by simp [h1]), if_pos h2] at hr
      exact absurd hr (by simp)
    · have hguard : pd.payment_method = "cash" →
          truthyInt pd.cash_received = true
            ∧ pd.amount ≤ pd.cash_received.getD 0 := by
        simpa using h2
      rw [process_payment_success s pd payId now o hfind h1 hguard]
      constructor
      · intro hnone
        simp [truthyStr, hnone]
      · intro cid c hcid hne hcust
        simp only [customerOf] at hcust ⊢
        simp only [hcid, truthyStr, Option.getD_some]
        rw [if_pos (by simpa using hne)]
        rw [find_updateFirst Customer.id
          (fun c => { c with
            total_spent := c.total_spent + pd.amount,
            loyalty_points := c.loyalty_points + Int.fdiv pd.amount 100 })
          (fun a => rfl) cid cid s.customers]
        rw [if_pos rfl, hcust]
        rfl

/-- C6 witness: the spec's example — paying 1050 on the sample order linked
to `custA` (5 points, 1000 spent) yields 15 points and 2050 spent. -/
theorem processPayment_customer_accums_witness :
    customerOf (process_payment dbPending ⟨"o1", "card", 1050, none, none⟩
        "pay5" 50).1 "c1"
      = some ⟨"c1", "Cust", none, none, none, 15, 2050, 0, 0⟩ :=
  (processPayment_customer_accums dbPending ⟨"o1", "card", 1050, none, none⟩
      "pay5" 50 orderPending rfl ⟨⟨"pay5", "completed", 1050, "o1", none⟩, rfl⟩).2
    "c1" custA rfl (by decide) rfl

/-! ## C7 — listing is capped and newest-first -/

/-- C7: whatever the store and the (possibly absent) date bounds, a
successful `get_orders` returns at most 100 orders, sorted by `created_at`
descending (newest first). -/
theorem getOrders_capped_and_sorted (s : DB) (date_from date_to : Option String)
    (os : List Order) (h : get_orders s date_from date_to = Except.ok os) :
    os.length ≤ 100 ∧ List.Sorted createdDesc os := by
  have sorted_take : ∀ l : List Order,
      ((List.insertionSort createdDesc l).take 100).length ≤ 100
        ∧ List.Sorted createdDesc ((List.insertionSort createdDesc l).take 100) := by
    intro l
    constructor
    · rw [List.length_take]
      exact min_le_left _ _
    · exact List.Pairwise.sublist (List.take_sublist _ _)
        (List.sorted_insertionSort createdDesc l)
  unfold get_orders at h
  by_cases hb : (truthyStr date_from && truthyStr date_to) = true
  · rw [if_pos hb] at h
    rcases hf : parseISODate (replaceZ (date_from.getD "")) with _ | f <;>
      rw [hf] at h <;>
      rcases ht : parseISODate (replaceZ (date_to.getD "")) with _ | t <;>
        rw [ht] at h <;> simp only [] at h
    · exact absurd h (by simp)
    · exact absurd h (by simp)
    · exact absurd h (by simp)
    · obtain rfl := Except.ok.inj h
      exact sorted_take _
  · rw [if_neg hb] at h
    obtain rfl := Except.ok.inj h
    exact sorted_take _

/-- C7 witness: listing the two-order sample store (stored oldest first)
returns the newer order first. -/
theorem getOrders_capped_and_sorted_witness :
    ([orderPending, orderOld] : List Order).length ≤ 100
      ∧ List.Sorted createdDesc [orderPending, orderOld] :=
  getOrders_capped_and_sorted dbTwo none none [orderPending, orderOld] rfl

/-! ## C8 — date-bound validation -/

/-- C8 counterexample: a malformed `date_from` supplied without `date_to` is
silently ignored — the call succeeds and returns the orders — because the
handler only parses the bounds when both are supplied; the claim that every
malformed supplied bound fails with a validation error is refuted.
(`"not-a-date"` is malformed: `fromisoformat` raises `ValueError` on it.) -/
theorem getOrders_single_malformed_bound_ignored :
    parseISODate (replaceZ "not-a-date") = none
    ∧ get_orders dbPending (some "not-a-date") none = Except.ok [orderPending] :=
  ⟨rfl, rfl⟩

/-- C8 (amended): date bounds are validated only when both are supplied (and
nonempty): in that case, if either bound fails ISO-8601 parsing (after the
handler's `Z → +00:00` rewrite), `get_orders` fails with `invalidDateFormat`
and returns no orders.  A malformed bound supplied alone is ignored (see the
counterexample). -/
theorem getOrders_both_bounds_validated (s : DB) (a b : String)
    (ha : ¬ a = "") (hb : ¬ b = "")
    (hbad : parseISODate (replaceZ a) = none ∨ parseISODate (replaceZ b) = none) :
    get_orders s (some a) (some b) = Except.error ApiError.invalidDateFormat := by
  unfold get_orders
  rw [if_pos (by simp [truthyStr, ha, hb])]
  rcases hbad with h | h
  · rw [Option.getD_some, h]
  · rcases hfa : parseISODate (replaceZ a) with _ | f
    · rw [Option.getD_some, hfa]
    · rw [Option.getD_some, hfa, Option.getD_some, h]

/-- C8 witness: a malformed `date_from` alongside a well-formed `date_to`
fails with the validation error. -/
theorem getOrders_both_bounds_validated_witness :
    get_orders dbPending (some "garbage") (some "2024-01-01")
      = Except.error ApiError.invalidDateFormat :=
  getOrders_both_bounds_validated dbPending "garbage" "2024-01-01"
    (by decide) (by decide) (Or.inl rfl)

end POS
